import Mathlib

/-!
Shallow embedding of the gift_aid_schedule_builder pipeline
(`src/logic/key_cleaning.py`, `src/logic/parsing/dates.py`,
`src/logic/parsing/parse_declarations_csv.py`, `src/models.py`,
`src/build_output_directory.py`) together with proofs about the
claims of the specification.

Modelling conventions:
- Python `datetime.date` values are triples of naturals with the
  calendar-validity predicate of the CPython implementation
  (years 1..9999); `date` comparison is lexicographic, as in CPython.
- Python `Decimal` amounts are modelled as rationals (`ℚ`); the pipeline
  only ever compares them with zero.
- Python `str.lower`/`str.upper`/`str.strip` are modelled on the ASCII
  range, which covers every character class the program's regexes act on
  (`[a-z]`, `[A-Z]`, `\d` and the literal characters of the inputs).
- Fallible Python code (raising `ValueError` etc.) is modelled with
  `Option`/`Except`.
-/

/-- Characters Python's default `str.strip` removes (ASCII whitespace). -/
def isPySpace (c : Char) : Bool :=
  c = ' ' || c = '\t' || c = '\n' || c = '\x0d' || c = '\x0b' || c = '\x0c'

/-- ASCII lowercase letter test, the character class `[a-z]`. -/
def isAsciiLowerChar (c : Char) : Bool :=
  decide (97 ≤ c.toNat) && decide (c.toNat ≤ 122)

/-- ASCII uppercase letter test, the character class `[A-Z]`. -/
def isAsciiUpperChar (c : Char) : Bool :=
  decide (65 ≤ c.toNat) && decide (c.toNat ≤ 90)

/-- ASCII digit test, the character class `\d` on the program's inputs. -/
def isDigitChar (c : Char) : Bool :=
  decide (48 ≤ c.toNat) && decide (c.toNat ≤ 57)

/-- Python `str.lower` on one character (ASCII case mapping). -/
def pyLowerChar (c : Char) : Char :=
  if 65 ≤ c.toNat ∧ c.toNat ≤ 90 then Char.ofNat (c.toNat + 32) else c

/-- Python `str.upper` on one character (ASCII case mapping). -/
def pyUpperChar (c : Char) : Char :=
  if 97 ≤ c.toNat ∧ c.toNat ≤ 122 then Char.ofNat (c.toNat - 32) else c

/-- Python `str.strip()` with no arguments: drop whitespace at both ends. -/
def pyStrip (s : String) : String :=
  String.mk (((s.data.dropWhile isPySpace).reverse.dropWhile isPySpace).reverse)

/-- Python `str.upper()`. -/
def pyUpper (s : String) : String := String.mk (s.data.map pyUpperChar)

/-- The digit character for a value below ten. -/
def digitChar (n : Nat) : Char :=
  match n with
  | 0 => '0' | 1 => '1' | 2 => '2' | 3 => '3' | 4 => '4'
  | 5 => '5' | 6 => '6' | 7 => '7' | 8 => '8' | _ => '9'

/-- Numeric value of a digit character. -/
def digitVal (c : Char) : Nat := c.toNat - 48

/-- Fuel-driven digit expansion; the fuel always suffices because a
number below `10 ^ fuel` has at most `fuel` digits. -/
def decimalDigitsAux (fuel n : Nat) : List Char :=
  match fuel with
  | 0 => []
  | fuel + 1 =>
    if n < 10 then [digitChar n]
    else decimalDigitsAux fuel (n / 10) ++ [digitChar (n % 10)]

/-- Decimal digit string of a natural number, most significant first:
Python `str(n)` / f-string interpolation of an `int`. -/
def decimalDigits (n : Nat) : List Char := decimalDigitsAux (n + 1) n

/-- Python `str(n)` for a natural number. -/
def decimalRepr (n : Nat) : String := String.mk (decimalDigits n)

/-- Value of a digit string, most significant digit first. -/
def digitsVal (cs : List Char) : Nat :=
  cs.foldl (fun acc c => 10 * acc + digitVal c) 0

/-- Left-pad a digit list with zeros to the given width
(Python `%04d` / `%02d` formatting used by `date.isoformat`). -/
def padZeros (width : Nat) (cs : List Char) : List Char :=
  List.replicate (width - cs.length) '0' ++ cs

/-- A string made of the single apostrophe character. -/
def aposStr : String := String.mk [Char.ofNat 39]

/-! ### Calendar dates (model of CPython `datetime.date`) -/

/-- A calendar date as stored by `datetime.date`. -/
structure Date where
  year : Nat
  month : Nat
  day : Nat
deriving DecidableEq, Repr

/-- Gregorian leap-year rule used by `datetime`. -/
def isLeapYear (y : Nat) : Bool :=
  (y % 4 = 0 && y % 100 ≠ 0) || y % 400 = 0

/-- Number of days in a month of a given year. -/
def daysInMonth (y m : Nat) : Nat :=
  if m = 2 then (if isLeapYear y then 29 else 28)
  else if m = 4 ∨ m = 6 ∨ m = 9 ∨ m = 11 then 30
  else 31

/-- The triples accepted by the `datetime.date` constructor
(`MINYEAR = 1`, `MAXYEAR = 9999`). -/
def validDate (y m d : Nat) : Prop :=
  1 ≤ y ∧ y ≤ 9999 ∧ 1 ≤ m ∧ m ≤ 12 ∧ 1 ≤ d ∧ d ≤ daysInMonth y m

instance (y m d : Nat) : Decidable (validDate y m d) := by
  unfold validDate; infer_instance

/-- `datetime.date` comparison (lexicographic on year, month, day). -/
def Date.lt (a b : Date) : Prop :=
  a.year < b.year ∨
    (a.year = b.year ∧
      (a.month < b.month ∨ (a.month = b.month ∧ a.day < b.day)))

/-- Non-strict `datetime.date` comparison. -/
def Date.le (a b : Date) : Prop := Date.lt a b ∨ a = b

instance (a b : Date) : Decidable (Date.lt a b) := by
  unfold Date.lt; infer_instance

instance (a b : Date) : Decidable (Date.le a b) := by
  unfold Date.le; infer_instance

/-- `date.replace(year=y)`: rebuilds the date through the validating
constructor, raising `ValueError` (here: `none`) when the resulting
triple is not a valid date. -/
def Date.replaceYear (d : Date) (y : Nat) : Option Date :=
  if validDate y d.month d.day then some ⟨y, d.month, d.day⟩ else none

/-- `date.isoformat()`: `YYYY-MM-DD`. -/
def Date.isoformat (d : Date) : String :=
  String.mk
    (padZeros 4 (decimalDigits d.year) ++ '-' ::
      (padZeros 2 (decimalDigits d.month) ++ '-' ::
        padZeros 2 (decimalDigits d.day)))

/-- Date order is total: two dates that are not `<`-related one way are
`≤`-related the other way. -/
theorem Date.not_lt_iff_le (a b : Date) : ¬ Date.lt a b ↔ Date.le b a := by
  cases a; cases b
  simp only [Date.lt, Date.le, Date.mk.injEq]
  omega

/-! ### `logic/key_cleaning.py` -/

/-- `clean_key`: lower-case, then delete every character outside `[a-z]`
(`re.sub(r"[^a-z]+", "", reference_or_identifier.lower())`). -/
def clean_key (reference_or_identifier : String) : String :=
  String.mk ((reference_or_identifier.data.map pyLowerChar).filter isAsciiLowerChar)

theorem pyLowerChar_fixes_lower (c : Char) (h : isAsciiLowerChar c = true) :
    pyLowerChar c = c := by
  unfold isAsciiLowerChar at h
  unfold pyLowerChar
  rw [if_neg]
  simp only [Bool.and_eq_true, decide_eq_true_eq] at h
  omega

theorem clean_key_idempotent (x : String) :
    clean_key (clean_key x) = clean_key x := by
  unfold clean_key
  congr 1
  generalize x.data = l
  induction l with
  | nil => simp
  | cons c cs ih =>
    simp only [List.map_cons, List.filter_cons]
    by_cases h : isAsciiLowerChar (pyLowerChar c) = true
    · simp only [h, if_true, List.map_cons,
        pyLowerChar_fixes_lower _ h, List.filter_cons, h, ih]
    · simp only [h, Bool.false_eq_true, if_false, ih]

/-! ### `logic/parsing/dates.py` (model of `datetime.strptime` on the two
formats the program uses) -/

/-- Split a character list on the slash separator (Python `"..".split`
semantics for a one-character separator, used to model the shape of the
`%d/%m/%Y` and `%d/%m/%y` formats). -/
def splitOnSlash (cs : List Char) : List (List Char) :=
  match cs with
  | [] => [[]]
  | c :: rest =>
    if c = '/' then [] :: splitOnSlash rest
    else
      match splitOnSlash rest with
      | [] => [[c]]
      | h :: t => (c :: h) :: t

/-- `datetime.strptime(s, "%d/%m/%Y").date()`: day and month are 1-2 digit
fields (CPython `_strptime` regexes `3[01]|[12]\d|0[1-9]|[1-9]` and
`1[0-2]|0[1-9]|[1-9]`), the year exactly four digits, separated by literal
slashes, the whole string consumed, and the resulting triple accepted by
the `date` constructor. -/
def strptimeDMY4 (s : String) : Option Date :=
  match splitOnSlash s.data with
  | [ds, ms, ys] =>
    if ds.all isDigitChar ∧ 1 ≤ ds.length ∧ ds.length ≤ 2 ∧
        ms.all isDigitChar ∧ 1 ≤ ms.length ∧ ms.length ≤ 2 ∧
        ys.all isDigitChar ∧ ys.length = 4 ∧
        validDate (digitsVal ys) (digitsVal ms) (digitsVal ds)
    then some ⟨digitsVal ys, digitsVal ms, digitsVal ds⟩
    else none
  | _ => none

/-- The century CPython's `%y` directive assigns to a two-digit year:
69-99 map to 19xx, 00-68 map to 20xx. -/
def expandTwoDigitYear (y2 : Nat) : Nat :=
  if 69 ≤ y2 then 1900 + y2 else 2000 + y2

/-- `datetime.strptime(s, "%d/%m/%y").date()`: as `strptimeDMY4` but the
year is exactly two digits, expanded by the `%y` century rule. -/
def strptimeDMY2 (s : String) : Option Date :=
  match splitOnSlash s.data with
  | [ds, ms, ys] =>
    if ds.all isDigitChar ∧ 1 ≤ ds.length ∧ ds.length ≤ 2 ∧
        ms.all isDigitChar ∧ 1 ≤ ms.length ∧ ms.length ≤ 2 ∧
        ys.all isDigitChar ∧ ys.length = 2 ∧
        validDate (expandTwoDigitYear (digitsVal ys))
          (digitsVal ms) (digitsVal ds)
    then some ⟨expandTwoDigitYear (digitsVal ys),
          digitsVal ms, digitsVal ds⟩
    else none
  | _ => none

/-- `parse_uk_formatted_date`: try `%d/%m/%Y`; on `ValueError` fall back to
`%d/%m/%y`; a failure of the fallback propagates (`none`). -/
def parse_uk_formatted_date (date_string : String) : Option Date :=
  match strptimeDMY4 date_string with
  | some d => some d
  | none => strptimeDMY2 date_string

/-! ### `logic/parsing/parse_declarations_csv.py`: postcodes and booleans -/

/-- `clean_postcode`: uppercase then trim; pass the `"X"` sentinel through;
otherwise drop the leading run of non-letters (`^[^A-Z]+`), the trailing
run of non-letters (`[^A-Z]+$`), every remaining character that is neither
a letter nor a digit (`[^A-Z\d]`), and, once more than two characters
remain, insert a space before the final three. -/
def clean_postcode (postcode : String) : String :=
  let p := pyStrip (pyUpper postcode)
  if p = "X" then p
  else
    let l1 := p.data.dropWhile (fun c => !isAsciiUpperChar c)
    let l2 := (l1.reverse.dropWhile (fun c => !isAsciiUpperChar c)).reverse
    let l3 := l2.filter (fun c => isAsciiUpperChar c || isDigitChar c)
    if 2 < l3.length then
      String.mk (l3.take (l3.length - 3)) ++ " " ++ String.mk (l3.drop (l3.length - 3))
    else String.mk l3

/-- The fixed tail of the UK postcode pattern: a space, one digit, two
letters, then a remainder accepted by `remOk`. -/
def ukTailCheck (remOk : List Char → Bool) (cs : List Char) : Bool :=
  match cs with
  | ' ' :: d :: l1 :: l2 :: rest =>
    isDigitChar d && isAsciiUpperChar l1 && isAsciiUpperChar l2 && remOk rest
  | _ => false

/-- One alternative of the UK postcode pattern: `n1` letters, `n2` digits,
`n3` letters, then the fixed tail. -/
def ukSplitCheck (remOk : List Char → Bool) (cs : List Char)
    (n1 n2 n3 : Nat) : Bool :=
  let a := cs.take n1
  let cs1 := cs.drop n1
  let b := cs1.take n2
  let cs2 := cs1.drop n2
  let c := cs2.take n3
  let cs3 := cs2.drop n3
  (a.length == n1) && a.all isAsciiUpperChar &&
  (b.length == n2) && b.all isDigitChar &&
  (c.length == n3) && c.all isAsciiUpperChar &&
  ukTailCheck remOk cs3

/-- The language of `[A-Z]{1,2}\d{1,2}[A-Z]? \d[A-Z]{2}` followed by a
remainder accepted by `remOk`. -/
def ukRegexMatchWith (remOk : List Char → Bool) (cs : List Char) : Bool :=
  [1, 2].any fun n1 => [1, 2].any fun n2 => [0, 1].any fun n3 =>
    ukSplitCheck remOk cs n1 n2 n3

/-- `valid_uk_postcode_regex.match(s)`: Python's `$` assertion succeeds at
the very end of the string or just before a single trailing newline. -/
def valid_uk_postcode_match (s : String) : Bool :=
  ukRegexMatchWith (fun rest => rest == [] || rest == ['\n']) s.data

/-- `validate_postcode`: the sentinel `"X"` is valid, otherwise the
cleaned postcode must match `valid_uk_postcode_regex`. -/
def validate_postcode (cleaned_postcode : String) : Bool :=
  cleaned_postcode == "X" || valid_uk_postcode_match cleaned_postcode

/-- The claim's reading of the validation shape: the whole string is
1-2 letters, 1-2 digits, an optional letter, a space, one digit and two
letters, with nothing after. -/
def ukPostcodeShapeExact (s : String) : Bool :=
  ukRegexMatchWith (fun rest => rest == []) s.data

/-- The extra strings Python's `$` lets through: the exact shape followed
by one newline character. -/
def ukPostcodeShapeNewline (s : String) : Bool :=
  ukRegexMatchWith (fun rest => rest == ['\n']) s.data

/-- `_parse_boolean`: `"0"` is false, `"1"` is true, anything else raises
`BooleanParsingError` (`none`). -/
def _parse_boolean (boolean_string : String) : Option Bool :=
  if boolean_string = "0" then some false
  else if boolean_string = "1" then some true
  else none

/-! ### `models.py` and `parse_transactions_csv.py` records -/

/-- `models.DonorDeclaration` (the `identifier` field is stored already
cleaned by `from_declaration_row`). -/
structure DonorDeclaration where
  title : String
  first_name : String
  last_name : String
  house_name_or_number : String
  postcode : String
  declaration_date : Date
  valid_four_years_before_declaration : Bool
  valid_day_of_declaration : Bool
  valid_after_day_of_declaration : Bool
  identifier : String
deriving DecidableEq, Repr

/-- `DonorDeclaration.donor_name`: space-joined non-empty name parts. -/
def DonorDeclaration.donor_name (d : DonorDeclaration) : String :=
  String.intercalate " "
    (([d.title, d.first_name, d.last_name]).filter (fun s => !(s == "")))

/-- `parse_transactions_csv.TransactionRow`. -/
structure TransactionRow where
  transaction_date : Date
  reference : String
  amount : Option ℚ
  row_index : Nat
deriving DecidableEq, Repr

/-- `TransactionRow.cleaned_reference`. -/
def TransactionRow.cleaned_reference (r : TransactionRow) : String :=
  clean_key r.reference

/-- `models.GiftAidableTransaction`. -/
structure GiftAidableTransaction where
  transaction_date : Date
  amount : ℚ
  donor_declaration : Option DonorDeclaration
deriving DecidableEq, Repr

/-- `GiftAidableTransaction.from_transaction_row`: raises `ValueError`
(`none`) when the row's amount is absent or negative. -/
def GiftAidableTransaction.from_transaction_row (transaction_row : TransactionRow)
    (donor_declaration : Option DonorDeclaration) : Option GiftAidableTransaction :=
  match transaction_row.amount with
  | none => none
  | some a =>
    if a < 0 then none
    else some ⟨transaction_row.transaction_date, a, donor_declaration⟩

/-! ### `build_output_directory.py`: the eligibility engine -/

/-- `build_output_directory.TransactionEligability`. -/
inductive TransactionEligability where
  | IS_GIFT_AIDABLE
  | TRANSACTION_OCCURRED_MORE_THAN_FOUR_YEARS_BEFORE_DECLARATION
  | DECLARATION_INVALID_FOUR_YEARS_PRECEEDING_DAY_OF_DECLARATION
  | DECLARATION_INVALID_FOR_DAY_OF_DECLARATION
  | DECLARATION_INVALID_AFTER_DAY_OF_DECLARATION
deriving DecidableEq, Repr

/-- `_determine_whether_transaction_gift_aidable_for_declaration`.
The cutoff is `declaration_date.replace(year=declaration_date.year - 4)`,
which goes through the validating `date` constructor and raises
`ValueError` (`none`) when that triple is not a valid date. -/
def _determine_whether_transaction_gift_aidable_for_declaration
    (transaction_row : TransactionRow) (declaration : DonorDeclaration) :
    Option TransactionEligability :=
  let transaction_date := transaction_row.transaction_date
  let declaration_date := declaration.declaration_date
  match declaration_date.replaceYear (declaration_date.year - 4) with
  | none => none
  | some four_years_preceeding_declaration_date =>
    if Date.lt transaction_date four_years_preceeding_declaration_date then
      some .TRANSACTION_OCCURRED_MORE_THAN_FOUR_YEARS_BEFORE_DECLARATION
    else if (Date.le four_years_preceeding_declaration_date transaction_date ∧
        Date.lt transaction_date declaration_date) ∧
        ¬ declaration.valid_four_years_before_declaration then
      some .DECLARATION_INVALID_FOUR_YEARS_PRECEEDING_DAY_OF_DECLARATION
    else if transaction_date = declaration_date ∧
        ¬ declaration.valid_day_of_declaration then
      some .DECLARATION_INVALID_FOR_DAY_OF_DECLARATION
    else if Date.lt declaration_date transaction_date ∧
        ¬ declaration.valid_after_day_of_declaration then
      some .DECLARATION_INVALID_AFTER_DAY_OF_DECLARATION
    else some .IS_GIFT_AIDABLE

/-- The five-outcome decision exactly as the claim words it: cutoff test
first, then the three temporal bands each gated by its flag. -/
def claimEligibility (t : Date) (declaration : DonorDeclaration) (c : Date) :
    TransactionEligability :=
  if Date.lt t c then
    .TRANSACTION_OCCURRED_MORE_THAN_FOUR_YEARS_BEFORE_DECLARATION
  else if Date.lt t declaration.declaration_date then
    (if declaration.valid_four_years_before_declaration then .IS_GIFT_AIDABLE
      else .DECLARATION_INVALID_FOUR_YEARS_PRECEEDING_DAY_OF_DECLARATION)
  else if t = declaration.declaration_date then
    (if declaration.valid_day_of_declaration then .IS_GIFT_AIDABLE
      else .DECLARATION_INVALID_FOR_DAY_OF_DECLARATION)
  else
    (if declaration.valid_after_day_of_declaration then .IS_GIFT_AIDABLE
      else .DECLARATION_INVALID_AFTER_DAY_OF_DECLARATION)

theorem Date.lt_asymm (a b : Date) : Date.lt a b → ¬ Date.lt b a := by
  cases a; cases b
  simp only [Date.lt]
  omega

theorem Date.lt_ne (a b : Date) : Date.lt a b → a ≠ b := by
  cases a; cases b
  simp only [Date.lt, ne_eq, Date.mk.injEq]
  omega

theorem Date.lt_irrefl (a : Date) : ¬ Date.lt a a := by
  cases a
  simp only [Date.lt]
  omega

/-- On the dates where the four-years-ago `replace` succeeds, the engine
computes exactly the claim's five-outcome decision tree. -/
theorem determine_eq_claimEligibility (tr : TransactionRow)
    (d : DonorDeclaration) (c : Date)
    (h : d.declaration_date.replaceYear (d.declaration_date.year - 4) = some c) :
    _determine_whether_transaction_gift_aidable_for_declaration tr d =
      some (claimEligibility tr.transaction_date d c) := by
  unfold _determine_whether_transaction_gift_aidable_for_declaration claimEligibility
  simp only [h]
  generalize tr.transaction_date = t
  by_cases h1 : Date.lt t c
  · simp [h1]
  · have hle : Date.le c t := (Date.not_lt_iff_le t c).mp h1
    by_cases h2 : Date.lt t d.declaration_date
    · have hne : t ≠ d.declaration_date := Date.lt_ne _ _ h2
      have hngt : ¬ Date.lt d.declaration_date t := Date.lt_asymm _ _ h2
      by_cases hf : d.valid_four_years_before_declaration <;>
        simp [h1, h2, hle, hne, hngt, hf]
    · by_cases heq : t = d.declaration_date
      · subst heq
        by_cases hf : d.valid_day_of_declaration <;>
          simp [h1, Date.lt_irrefl, hf]
      · have hgt : Date.lt d.declaration_date t := by
          rcases (Date.not_lt_iff_le t d.declaration_date).mp h2 with hlt | hq
          · exact hlt
          · exact absurd hq.symm heq
        by_cases hf : d.valid_after_day_of_declaration <;>
          simp [h1, h2, heq, hgt, hf]

/-- The declaration of the spec's worked example: dated 1993-10-08, all
three coverage flags true. -/
def exampleDeclaration1993 : DonorDeclaration :=
  ⟨"Mr", "Foo", "Bar", "1", "B1 1AA", ⟨1993, 10, 8⟩, true, true, true, "foobar"⟩

/-- A transaction row dated on the given date (other fields boilerplate). -/
def exampleRowOn (dt : Date) : TransactionRow := ⟨dt, "foobar", some 5, 2⟩

/-- C1: the eligibility engine does not always return one of the five
outcomes: for a declaration dated on a leap day whose year minus 4 is not
a leap year (2104-02-29, since 2100 is not a leap year), the
`declaration_date.replace(year=declaration_date.year - 4)` call raises
`ValueError`, so the engine raises instead of returning an outcome. -/
theorem claim_C1_counterexample :
    _determine_whether_transaction_gift_aidable_for_declaration
      (exampleRowOn ⟨2104, 2, 28⟩)
      ⟨"Mr", "Foo", "Bar", "1", "B1 1AA", ⟨2104, 2, 29⟩, true, true, true,
        "foobar"⟩ = none := by decide

/-- C1 (amended): whenever the declaration date with its year replaced by
year minus 4 is a valid calendar date — which is every case except a
Feb-29 declaration whose year minus 4 is not a leap year — the engine
returns exactly the claim's five-outcome decision evaluated in the
claim's order (cutoff first, then the three flag-gated temporal bands);
and for a declaration dated 1993-10-08 with all flags true, a transaction
dated 1989-10-08 is eligible while one dated 1989-10-07 is too old. -/
theorem claim_C1_eligibility :
    (∀ (tr : TransactionRow) (d : DonorDeclaration) (c : Date),
      d.declaration_date.replaceYear (d.declaration_date.year - 4) = some c →
      _determine_whether_transaction_gift_aidable_for_declaration tr d =
        some (claimEligibility tr.transaction_date d c)) ∧
    _determine_whether_transaction_gift_aidable_for_declaration
      (exampleRowOn ⟨1989, 10, 8⟩) exampleDeclaration1993 =
      some .IS_GIFT_AIDABLE ∧
    _determine_whether_transaction_gift_aidable_for_declaration
      (exampleRowOn ⟨1989, 10, 7⟩) exampleDeclaration1993 =
      some .TRANSACTION_OCCURRED_MORE_THAN_FOUR_YEARS_BEFORE_DECLARATION :=
  ⟨determine_eq_claimEligibility, by decide, by decide⟩

/-- C1 witness: the amended theorem applied at the spec's worked example,
with the `replace` hypothesis discharged concretely. -/
theorem claim_C1_eligibility_witness :
    (Date.replaceYear ⟨1993, 10, 8⟩ 1989 = some ⟨1989, 10, 8⟩) ∧
    _determine_whether_transaction_gift_aidable_for_declaration
      (exampleRowOn ⟨1989, 10, 8⟩) exampleDeclaration1993 =
      some (claimEligibility ⟨1989, 10, 8⟩ exampleDeclaration1993
        ⟨1989, 10, 8⟩) :=
  ⟨by decide,
    claim_C1_eligibility.1 (exampleRowOn ⟨1989, 10, 8⟩)
      exampleDeclaration1993 ⟨1989, 10, 8⟩ (by decide)⟩

/-- C3: the shared date parser accepts `d/m/yyyy`, falls back to `d/m/yy`
only when the four-digit form fails, and accepts nothing else; the two
example strings parse to 27 February 1997 and the ISO-style string is
rejected. -/
theorem claim_C3_date_parsing :
    parse_uk_formatted_date "27/2/1997" = some ⟨1997, 2, 27⟩ ∧
    parse_uk_formatted_date "27/2/97" = some ⟨1997, 2, 27⟩ ∧
    parse_uk_formatted_date "1997-2-27" = none ∧
    (∀ s d, parse_uk_formatted_date s = some d →
      strptimeDMY4 s = some d ∨
        (strptimeDMY4 s = none ∧ strptimeDMY2 s = some d)) := by
  refine ⟨by decide, by decide, by decide, ?_⟩
  intro s d h
  unfold parse_uk_formatted_date at h
  cases heq : strptimeDMY4 s with
  | some d4 => rw [heq] at h; exact Or.inl h
  | none => rw [heq] at h; exact Or.inr ⟨rfl, h⟩

/-- C3 witness: the ordering clause applied at the first example. -/
theorem claim_C3_date_parsing_witness :
    strptimeDMY4 "27/2/1997" = some ⟨1997, 2, 27⟩ ∨
      (strptimeDMY4 "27/2/1997" = none ∧
        strptimeDMY2 "27/2/1997" = some ⟨1997, 2, 27⟩) :=
  claim_C3_date_parsing.2.2.2 "27/2/1997" ⟨1997, 2, 27⟩ (by decide)

/-- C7: `clean_key` is total by construction, idempotent,
case-insensitive on the spec's example, strips all non-letters on the
spec's example, and maps the empty string to the empty string. -/
theorem claim_C7_clean_key :
    (∀ x, clean_key (clean_key x) = clean_key x) ∧
    clean_key "AbC" = clean_key "abc" ∧
    clean_key "foo &8_\\ bar" = "foobar" ∧
    clean_key "" = "" :=
  ⟨clean_key_idempotent, by decide, by decide, by decide⟩

theorem ukTailCheck_or (p q : List Char → Bool) (cs : List Char) :
    ukTailCheck (fun r => p r || q r) cs =
      (ukTailCheck p cs || ukTailCheck q cs) := by
  unfold ukTailCheck
  split
  · rw [Bool.and_or_distrib_left]
  · simp

theorem ukSplitCheck_or (p q : List Char → Bool) (cs : List Char)
    (n1 n2 n3 : Nat) :
    ukSplitCheck (fun r => p r || q r) cs n1 n2 n3 =
      (ukSplitCheck p cs n1 n2 n3 || ukSplitCheck q cs n1 n2 n3) := by
  unfold ukSplitCheck
  dsimp only
  rw [ukTailCheck_or, Bool.and_or_distrib_left]

theorem ukRegexMatchWith_or (p q : List Char → Bool) (cs : List Char) :
    ukRegexMatchWith (fun r => p r || q r) cs =
      (ukRegexMatchWith p cs || ukRegexMatchWith q cs) := by
  unfold ukRegexMatchWith
  simp only [List.any_cons, List.any_nil, ukSplitCheck_or, Bool.or_false]
  apply Bool.eq_iff_iff.mpr
  simp only [Bool.or_eq_true]
  tauto

/-- The overall characterization of `validate_postcode`: Python's `$`
assertion also fires just before one trailing newline, so the accepted
strings are the sentinel, the exact shape, and the shape followed by a
single newline. -/
theorem validate_postcode_characterization (s : String) :
    validate_postcode s =
      ((s == "X") || ukPostcodeShapeExact s || ukPostcodeShapeNewline s) := by
  unfold validate_postcode valid_uk_postcode_match ukPostcodeShapeExact
    ukPostcodeShapeNewline
  rw [ukRegexMatchWith_or (fun r => r == []) (fun r => r == ['\n']),
    Bool.or_assoc]

/-- C9: the claim says validation accepts *exactly* the sentinel or the
stated shape, but `valid_uk_postcode_regex.match` uses `$`, which in
Python also matches just before a lone trailing newline; the code
therefore accepts `"EC1N 8QX\n"`, which is neither the sentinel nor of
the stated shape. -/
theorem claim_C9_counterexample :
    validate_postcode "EC1N 8QX\n" = true ∧
    ("EC1N 8QX\n" : String) ≠ "X" ∧
    ukPostcodeShapeExact "EC1N 8QX\n" = false := by
  refine ⟨by decide, by decide, by decide⟩

/-- C9 (amended): cleaning behaves exactly as claimed on the spec's two
examples, and validation accepts exactly the sentinel `"X"`, the stated
shape, or the stated shape followed by one trailing newline (the extra
case Python's `$` assertion admits). -/
theorem claim_C9_postcodes :
    clean_postcode ("123ec1" ++ aposStr ++ "?n8Q  \tx()") = "EC1N 8QX" ∧
    validate_postcode "EC1N 8QX" = true ∧
    clean_postcode "x" = "X" ∧
    validate_postcode "X" = true ∧
    (∀ s, validate_postcode s =
      ((s == "X") || ukPostcodeShapeExact s || ukPostcodeShapeNewline s)) :=
  ⟨by decide, by decide, by decide, by decide, validate_postcode_characterization⟩


/-! ### `logic/parsing/parse_declarations_csv.py`: `DeclarationRow.from_row` -/

/-- `parse_declarations_csv.DeclarationRow`. -/
structure DeclarationRow where
  title : String
  first_name : String
  last_name : String
  house_number_or_name : String
  postcode : String
  declaration_date : Date
  valid_four_years_before_declaration : Bool
  valid_day_of_declaration : Bool
  valid_after_day_of_declaration : Bool
  identifier : String
deriving DecidableEq, Repr

/-- Python `last_name.replace("-", " ")`. -/
def hyphenToSpace (s : String) : String :=
  String.mk (s.data.map (fun c => if c = '-' then ' ' else c))

/-- Message of the whole-row shape error. -/
def declMsgShape (n : Nat) : String :=
  "Expected each declaration to be represented by a row with ten " ++
    "items - row had " ++ decimalRepr n ++ " items."

/-- Message of the title length error (column 1). -/
def declMsgTitle : String := "Title should be no longer than four characters"

/-- Message of the empty first name error (column 2). -/
def declMsgFirstEmpty : String := "No first name provided."

/-- Message of the first name length error (column 2). -/
def declMsgFirstLong (first_name : String) : String :=
  "The first name \"" ++ first_name ++ "\" is longer than 35 " ++
    "characters - please shorten it to being within the 35 character limit."

/-- Message of the empty last name error (column 3). -/
def declMsgLastEmpty : String := "No last name provided."

/-- Message of the last name length error (column 3). -/
def declMsgLastLong (last_name : String) : String :=
  "The last name \"" ++ last_name ++ "\" is longer than 35 " ++
    "characters - please shorten it to being within the 35 character limit."

/-- Message of the hyphenated last name error, carrying the suggested
hyphen-to-space replacement (column 3). -/
def declMsgLastHyphen (last_name : String) : String :=
  "Double-barrelled last names should have a space instead of " ++
    "a hypen. Consider using \"" ++ hyphenToSpace last_name ++
    "\" instead of \"" ++ last_name ++ "\"."

/-- Message of the empty house identifier error (column 4). -/
def declMsgHouseEmpty : String := "No house number (or name) provided."

/-- Message of the house identifier length error (column 4). -/
def declMsgHouseLong (house : String) : String :=
  "The house name \"" ++ house ++ "\" is longer " ++
    "than 40 characters - please shorten it to being within the 40 character " ++
    "limit."

/-- Message of the empty postcode error (column 5). -/
def declMsgPostcodeEmpty : String := "No postcode provided."

/-- Message of the invalid postcode error (column 5). -/
def declMsgPostcodeInvalid (raw : String) : String :=
  "Invalid postcode: " ++ raw ++ "."

/-- Message of the date parse error (column 6). -/
def declMsgDate (raw : String) : String :=
  "Error parsing date \"" ++ raw ++ "\", expected " ++
    "date of the form dd/mm/yyyy or dd/mm/yy."

/-- Message of the first boolean flag error (column 7). -/
def declMsgBool7 (raw : String) : String :=
  "Error parsing \"Valid Four Years Before Day of " ++
    "Declaration\" value, was expecting either \"1\" if the declaration " ++
    "covers the four years preceeding the date the declaration was signed " ++
    "or \"0\" if it doesn" ++ aposStr ++ "t, instead got \"" ++ raw ++ "\""

/-- Message of the second boolean flag error (column 8). -/
def declMsgBool8 (raw : String) : String :=
  "Error parsing \"Valid Day of Declaration\" value, was " ++
    "expecting either \"1\" if the declaration covers the date the " ++
    "declaration was signed or \"0\" if it doesn" ++ aposStr ++
    "t, instead got \"" ++ raw ++ "\""

/-- Message of the third boolean flag error (column 9). -/
def declMsgBool9 (raw : String) : String :=
  "Error parsing \"Valid After Day of Declaration\" " ++
    "value, was expecting either \"1\" if the declaration is valid " ++
    "for days following the date the declaration was signed or \"0\" " ++
    "if it isn" ++ aposStr ++ "t, instead got \"" ++ raw ++ "\""

/-- Message of the empty identifier error (column 10). -/
def declMsgIdentifierEmpty : String :=
  "No identifier provided - please consult the " ++
    "README for information about the value you need to provide in " ++
    "this column."

/-- `DeclarationRow.from_row`: validates the ten fields in source order,
raising a `DeclarationRowParsingError` (modelled as
`(column_number, message)`) at the first violated rule. The field
accesses `row[0]`..`row[9]` are modelled with `getD` under the length
guard the source checks first. -/
def DeclarationRow.from_row (row : List String) :
    Except (Option Nat × String) DeclarationRow :=
  if row.length ≠ 10 then .error (none, declMsgShape row.length)
  else
    let title := pyStrip (row.getD 0 "")
    let first_name := pyStrip (row.getD 1 "")
    let last_name := pyStrip (row.getD 2 "")
    let house_number_or_name := pyStrip (row.getD 3 "")
    let postcode := clean_postcode (row.getD 4 "")
    if 4 < title.length then .error (some 1, declMsgTitle)
    else if first_name = "" then .error (some 2, declMsgFirstEmpty)
    else if 35 < first_name.length then .error (some 2, declMsgFirstLong first_name)
    else if last_name = "" then .error (some 3, declMsgLastEmpty)
    else if 35 < last_name.length then .error (some 3, declMsgLastLong last_name)
    else if last_name.data.contains '-' then
      .error (some 3, declMsgLastHyphen last_name)
    else if house_number_or_name = "" then .error (some 4, declMsgHouseEmpty)
    else if 40 < house_number_or_name.length then
      .error (some 4, declMsgHouseLong house_number_or_name)
    else if postcode = "" then .error (some 5, declMsgPostcodeEmpty)
    else if validate_postcode postcode = false then
      .error (some 5, declMsgPostcodeInvalid (row.getD 4 ""))
    else
      match parse_uk_formatted_date (pyStrip (row.getD 5 "")) with
      | none => .error (some 6, declMsgDate (row.getD 5 ""))
      | some declaration_date =>
        match _parse_boolean (pyStrip (row.getD 6 "")) with
        | none => .error (some 7, declMsgBool7 (row.getD 6 ""))
        | some valid_four_years_before_declaration =>
          match _parse_boolean (pyStrip (row.getD 7 "")) with
          | none => .error (some 8, declMsgBool8 (row.getD 7 ""))
          | some valid_day_of_declaration =>
            match _parse_boolean (pyStrip (row.getD 8 "")) with
            | none => .error (some 9, declMsgBool9 (row.getD 8 ""))
            | some valid_after_day_of_declaration =>
              let identifier := pyStrip (row.getD 9 "")
              if identifier = "" then .error (some 10, declMsgIdentifierEmpty)
              else
                .ok ⟨title, first_name, last_name, house_number_or_name, postcode,
                  declaration_date, valid_four_years_before_declaration,
                  valid_day_of_declaration, valid_after_day_of_declaration,
                  identifier⟩

/-- The claim's rule list for declaration rows, in the claim's order; the
result is `none` when every rule holds, and otherwise the column locator
(`none` inside = whole-row shape error) of the first violated rule. -/
def specFirstViolation (row : List String) : Option (Option Nat) :=
  if row.length ≠ 10 then some none
  else
    let title := pyStrip (row.getD 0 "")
    let first_name := pyStrip (row.getD 1 "")
    let last_name := pyStrip (row.getD 2 "")
    let house := pyStrip (row.getD 3 "")
    let postcode := clean_postcode (row.getD 4 "")
    if 4 < title.length then some (some 1)
    else if first_name = "" then some (some 2)
    else if 35 < first_name.length then some (some 2)
    else if last_name = "" then some (some 3)
    else if 35 < last_name.length then some (some 3)
    else if last_name.data.contains '-' then some (some 3)
    else if house = "" then some (some 4)
    else if 40 < house.length then some (some 4)
    else if postcode = "" then some (some 5)
    else if validate_postcode postcode = false then some (some 5)
    else if (parse_uk_formatted_date (pyStrip (row.getD 5 ""))).isNone then
      some (some 6)
    else if pyStrip (row.getD 6 "") ≠ "0" ∧ pyStrip (row.getD 6 "") ≠ "1" then
      some (some 7)
    else if pyStrip (row.getD 7 "") ≠ "0" ∧ pyStrip (row.getD 7 "") ≠ "1" then
      some (some 8)
    else if pyStrip (row.getD 8 "") ≠ "0" ∧ pyStrip (row.getD 8 "") ≠ "1" then
      some (some 9)
    else if pyStrip (row.getD 9 "") = "" then some (some 10)
    else none

/-- The column view of a `from_row` outcome. -/
def declarationOutcomeColumn (e : Except (Option Nat × String) DeclarationRow) :
    Option (Option Nat) :=
  match e with
  | .error (c, _) => some c
  | .ok _ => none

theorem parse_boolean_none_iff (s : String) :
    _parse_boolean s = none ↔ (s ≠ "0" ∧ s ≠ "1") := by
  unfold _parse_boolean
  split_ifs with h0 h1 <;> simp_all

theorem parse_boolean_some_cond (s : String) (b : Bool)
    (h : _parse_boolean s = some b) : ¬ (s ≠ "0" ∧ s ≠ "1") := by
  intro hc
  rw [(parse_boolean_none_iff s).mpr hc] at h
  exact Option.noConfusion h

theorem from_row_column_spec (row : List String) :
    declarationOutcomeColumn (DeclarationRow.from_row row) =
      specFirstViolation row := by
  unfold declarationOutcomeColumn DeclarationRow.from_row specFirstViolation
  by_cases h0 : row.length ≠ 10
  · rw [if_pos h0, if_pos h0]
  · rw [if_neg h0, if_neg h0]
    dsimp only
    by_cases h1 : 4 < (pyStrip (row.getD 0 "")).length
    · rw [if_pos h1, if_pos h1]
    rw [if_neg h1, if_neg h1]
    by_cases h2 : pyStrip (row.getD 1 "") = ""
    · rw [if_pos h2, if_pos h2]
    rw [if_neg h2, if_neg h2]
    by_cases h3 : 35 < (pyStrip (row.getD 1 "")).length
    · rw [if_pos h3, if_pos h3]
    rw [if_neg h3, if_neg h3]
    by_cases h4 : pyStrip (row.getD 2 "") = ""
    · rw [if_pos h4, if_pos h4]
    rw [if_neg h4, if_neg h4]
    by_cases h5 : 35 < (pyStrip (row.getD 2 "")).length
    · rw [if_pos h5, if_pos h5]
    rw [if_neg h5, if_neg h5]
    by_cases h6 : (pyStrip (row.getD 2 "")).data.contains '-' = true
    · rw [if_pos h6, if_pos h6]
    rw [if_neg h6, if_neg h6]
    by_cases h7 : pyStrip (row.getD 3 "") = ""
    · rw [if_pos h7, if_pos h7]
    rw [if_neg h7, if_neg h7]
    by_cases h8 : 40 < (pyStrip (row.getD 3 "")).length
    · rw [if_pos h8, if_pos h8]
    rw [if_neg h8, if_neg h8]
    by_cases h9 : clean_postcode (row.getD 4 "") = ""
    · rw [if_pos h9, if_pos h9]
    rw [if_neg h9, if_neg h9]
    by_cases h10 : validate_postcode (clean_postcode (row.getD 4 "")) = false
    · rw [if_pos h10, if_pos h10]
    rw [if_neg h10, if_neg h10]
    cases hd : parse_uk_formatted_date (pyStrip (row.getD 5 "")) with
    | none => rfl
    | some dd =>
      cases hb6 : _parse_boolean (pyStrip (row.getD 6 "")) with
      | none => rw [if_pos ((parse_boolean_none_iff _).mp hb6)]; rfl
      | some b6 =>
        rw [if_neg (parse_boolean_some_cond _ _ hb6)]
        cases hb7 : _parse_boolean (pyStrip (row.getD 7 "")) with
        | none => rw [if_pos ((parse_boolean_none_iff _).mp hb7)]; rfl
        | some b7 =>
          rw [if_neg (parse_boolean_some_cond _ _ hb7)]
          cases hb8 : _parse_boolean (pyStrip (row.getD 8 "")) with
          | none => rw [if_pos ((parse_boolean_none_iff _).mp hb8)]; rfl
          | some b8 =>
            rw [if_neg (parse_boolean_some_cond _ _ hb8)]
            dsimp only
            by_cases h11 : pyStrip (row.getD 9 "") = ""
            · rw [if_pos h11, if_pos h11]; rfl
            rw [if_neg h11, if_neg h11]; rfl

theorem declarationOutcomeColumn_none_iff
    (e : Except (Option Nat × String) DeclarationRow) :
    declarationOutcomeColumn e = none ↔ e.isOk = true := by
  cases e with
  | error p => cases p; simp [declarationOutcomeColumn, Except.isOk, Except.toBool]
  | ok d => simp [declarationOutcomeColumn, Except.isOk, Except.toBool]

/-- C8: the declaration row parser fails with the column locator of the
first violated rule, checking the rules in exactly the claim's fixed
order, and returns a record exactly when every rule holds. -/
theorem claim_C8_declaration_row_rules (row : List String) :
    declarationOutcomeColumn (DeclarationRow.from_row row) =
      specFirstViolation row ∧
    ((DeclarationRow.from_row row).isOk = true ↔
      specFirstViolation row = none) := by
  refine ⟨from_row_column_spec row, ?_⟩
  rw [← from_row_column_spec row]
  exact (declarationOutcomeColumn_none_iff _).symm

/-! ### `build_output_directory.py`: the matching and filtering pipeline -/

/-- Python substring containment, `needle in hay`. -/
def listContainsSub (hay needle : List Char) : Bool :=
  match hay with
  | [] => needle.isEmpty
  | _ :: t => needle.isPrefixOf hay || listContainsSub t needle

/-- Python `", ".join(l)`. -/
def strJoinCommaSpace (l : List String) : String :=
  String.intercalate ", " l

/-- The two `ValueError` sites reachable from the filtering loop. -/
inductive PipelineError where
  | valueErrorFromReplace
  | valueErrorFromConstructor
deriving DecidableEq, Repr

/-- One `transactions_log_file.write(...)` call of the filtering loop,
recorded structurally; `AuditEvent.text` reproduces the exact written
string. -/
inductive AuditEvent where
  | skippedNoAmount (row_index : Nat) (reference : String)
  | skippedNegativeAmount (row_index : Nat) (reference : String)
  | noMatch (row_index : Nat) (reference : String)
  | accepted (row_index : Nat) (reference : String) (donor_name : String)
  | declaredButExcluded (row_index : Nat) (reference : String)
      (declaration : DonorDeclaration) (transaction_date : Date)
      (outcome : TransactionEligability)
  | ambiguous (row_index : Nat) (reference : String) (donors_summary : String)
deriving DecidableEq, Repr

/-- `log_prefix = f'Row {row_index}, reference "{reference}":'`. -/
def logPrefixFor (row_index : Nat) (reference : String) : String :=
  "Row " ++ decimalRepr row_index ++ ", reference \"" ++ reference ++ "\":"

/-- The text `_log_non_gift_aidable_transaction_that_has_declaration`
writes; note that none of its four branches ends in a newline. The
`IS_GIFT_AIDABLE` case is the source's `raise Exception` branch, which
the filtering loop never reaches. -/
def excludedText (lp : String) (declaration : DonorDeclaration)
    (transaction_date : Date) (outcome : TransactionEligability) : String :=
  let lp2 := lp ++ " had declaration from " ++ declaration.donor_name ++
    ", however"
  match outcome with
  | .TRANSACTION_OCCURRED_MORE_THAN_FOUR_YEARS_BEFORE_DECLARATION =>
    lp2 ++ " transaction occurred more than four years before " ++
      "declaration date of " ++ declaration.declaration_date.isoformat
  | .DECLARATION_INVALID_FOUR_YEARS_PRECEEDING_DAY_OF_DECLARATION =>
    lp2 ++ " transaction occurred less than four years before " ++
      "declaration date, but declaration wasn" ++ aposStr ++
      "t stated to cover donations made " ++
      "in the four years before it was signed (declaration date: " ++
      declaration.declaration_date.isoformat ++ ", transaction date: " ++
      transaction_date.isoformat ++ ")"
  | .DECLARATION_INVALID_FOR_DAY_OF_DECLARATION =>
    lp2 ++ " transaction occurred on declaration date, but declaration " ++
      "wasn" ++ aposStr ++ "t stated to cover donations made on the day it was signed " ++
      "(declaration/transaction date: " ++
      declaration.declaration_date.isoformat ++ ")"
  | .DECLARATION_INVALID_AFTER_DAY_OF_DECLARATION =>
    lp2 ++ " transaction occurred after declaration date, but declaration " ++
      "wasn" ++ aposStr ++ "t stated to cover donations made after the day it was " ++
      "signed (declaration date: " ++
      declaration.declaration_date.isoformat ++ ", " ++ "transaction date: " ++
      transaction_date.isoformat ++ ")"
  | .IS_GIFT_AIDABLE => ""

/-- The exact string each audit write appends to `transactions_log.txt`. -/
def AuditEvent.text : AuditEvent → String
  | .skippedNoAmount i r =>
    logPrefixFor i r ++ " skipping as transaction has no associated amount\n"
  | .skippedNegativeAmount i r =>
    logPrefixFor i r ++ " skipping as transaction amount is negative\n"
  | .noMatch i r =>
    logPrefixFor i r ++ " not detected as gift-aidable transaction\n"
  | .accepted i r dn =>
    logPrefixFor i r ++ " detected as gift-aidable transaction from " ++
      dn ++ "\n"
  | .declaredButExcluded i r d td o => excludedText (logPrefixFor i r) d td o
  | .ambiguous i r ds =>
    logPrefixFor i r ++ " detected as gift-aidable transaction, but found " ++
      "multiple possible donors: " ++ ds ++ "\n"

/-- `_first_table_row_index` of the output workbook. -/
def _first_table_row_index : Nat := 25

/-- One line of `transactions_that_need_manual_handling.txt`, recorded
structurally; `ManualLogEntry.text` reproduces the exact written string. -/
structure ManualLogEntry where
  xlsx_row_index : Nat
  source_row_index : Nat
  possible_donors_summary : String
deriving DecidableEq, Repr

/-- The exact manual-review line the loop writes for an ambiguous row. -/
def ManualLogEntry.text (e : ManualLogEntry) : String :=
  "Transaction on row " ++ decimalRepr e.xlsx_row_index ++
    " of xlsx schedule, from " ++ "row " ++ decimalRepr e.source_row_index ++
    " of transactions.csv, possible donors were " ++
    e.possible_donors_summary ++ "\n"

/-- The `warnings.warn` message issued when the 1000-transaction cap is
reached while processing the given input row. -/
def capWarningText (row_index : Nat) : String :=
  "Over 1000 gift aidable transactions detected, but each schedule can " ++
    "only hold at most 1000 transactions - only processing up to row " ++
    decimalRepr row_index ++ " of transactions.csv. To process further transactions from " ++
    "the file, delete rows 2-" ++ decimalRepr row_index ++ " of the file once this script has " ++
    "completed successfully, then rerun the script."

/-- The mutable locals of `_do_filtering_with_logging` while the loop
runs: accumulated transactions and the write calls made to both logs. -/
structure FilterState where
  transactions : List GiftAidableTransaction
  audit : List AuditEvent
  manual : List ManualLogEntry
deriving DecidableEq, Repr

/-- What one loop iteration tells the loop driver to do next. -/
inductive StepControl where
  | next
  | halt (warning : String)
  | crash (e : PipelineError)
deriving DecidableEq, Repr

/-- The final outcome of `_do_filtering_with_logging`: the returned
transactions, both logs, the cap warning if issued, an uncaught exception
if one was raised, and the input rows the loop never processed. -/
structure FilterResult where
  transactions : List GiftAidableTransaction
  audit : List AuditEvent
  manual : List ManualLogEntry
  warning : Option String
  crash : Option PipelineError
  unprocessed : List (Nat × TransactionRow)
deriving DecidableEq, Repr

/-- The `if len(transactions) == 1000: warn; break` check that ends every
loop iteration that did not `continue`. -/
def capCheck (row_index : Nat) (st : FilterState) : FilterState × StepControl :=
  if st.transactions.length = 1000 then (st, .halt (capWarningText row_index))
  else (st, .next)

/-- One iteration of the `for row_index, transaction_row in
enumerate(transaction_rows, 2)` loop of `_do_filtering_with_logging`. -/
def filterStep (declarations : List DonorDeclaration) (row_index : Nat)
    (transaction_row : TransactionRow) (st : FilterState) :
    FilterState × StepControl :=
  match transaction_row.amount with
  | none =>
    ({ st with audit := st.audit ++
        [.skippedNoAmount row_index transaction_row.reference] }, .next)
  | some a =>
    if a < 0 then
      ({ st with audit := st.audit ++
          [.skippedNegativeAmount row_index transaction_row.reference] }, .next)
    else
      match declarations.filter (fun d =>
          listContainsSub transaction_row.cleaned_reference.data
            d.identifier.data) with
      | [] =>
        capCheck row_index { st with audit := st.audit ++
          [.noMatch row_index transaction_row.reference] }
      | [declaration] =>
        match _determine_whether_transaction_gift_aidable_for_declaration
            transaction_row declaration with
        | none => (st, .crash .valueErrorFromReplace)
        | some outcome =>
          if outcome = .IS_GIFT_AIDABLE then
            let st1 := { st with audit := st.audit ++
              [.accepted row_index transaction_row.reference
                declaration.donor_name] }
            match GiftAidableTransaction.from_transaction_row transaction_row
                (some declaration) with
            | none => (st1, .crash .valueErrorFromConstructor)
            | some t =>
              capCheck row_index
                { st1 with transactions := st1.transactions ++ [t] }
          else
            capCheck row_index { st with audit := st.audit ++
              [.declaredButExcluded row_index transaction_row.reference
                declaration transaction_row.transaction_date outcome] }
      | d1 :: d2 :: ds =>
        let possible_donors_summary :=
          strJoinCommaSpace ((d1 :: d2 :: ds).map DonorDeclaration.donor_name)
        let st1 := { st with
          audit := st.audit ++
            [.ambiguous row_index transaction_row.reference
              possible_donors_summary],
          manual := st.manual ++
            [⟨_first_table_row_index + row_index - 2, row_index,
              possible_donors_summary⟩] }
        match GiftAidableTransaction.from_transaction_row transaction_row
            none with
        | none => (st1, .crash .valueErrorFromConstructor)
        | some t =>
          capCheck row_index { st1 with transactions := st1.transactions ++ [t] }

/-- The loop driver: runs iterations until the rows run out, the cap
halts processing, or an exception escapes. -/
def filterLoop (declarations : List DonorDeclaration) :
    List (Nat × TransactionRow) → FilterState → FilterResult
  | [], st => ⟨st.transactions, st.audit, st.manual, none, none, []⟩
  | (i, row) :: rest, st =>
    match filterStep declarations i row st with
    | (st1, .next) => filterLoop declarations rest st1
    | (st1, .halt w) => ⟨st1.transactions, st1.audit, st1.manual, some w, none, rest⟩
    | (st1, .crash e) => ⟨st1.transactions, st1.audit, st1.manual, none, some e, rest⟩

/-- Python `enumerate(l, i)`. -/
def enumerateFrom {α : Type} (i : Nat) : List α → List (Nat × α)
  | [] => []
  | r :: rs => (i, r) :: enumerateFrom (i + 1) rs

/-- `_do_filtering_with_logging`: the whole filtering pass, starting the
row numbering at 2 (row 1 is the header) with empty logs. -/
def _do_filtering_with_logging (transaction_rows : List TransactionRow)
    (declarations : List DonorDeclaration) : FilterResult :=
  filterLoop declarations (enumerateFrom 2 transaction_rows) ⟨[], [], []⟩

/-- The bytes written to `transactions_log.txt` over the run. -/
def transactionsLogContent (r : FilterResult) : String :=
  String.join (r.audit.map AuditEvent.text)

/-- The bytes written to `transactions_that_need_manual_handling.txt`. -/
def manualLogContent (r : FilterResult) : String :=
  String.join (r.manual.map ManualLogEntry.text)

/-- Number of newline characters, i.e. of completed lines, in a log. -/
def countNewlines (s : String) : Nat := s.data.count '\n'

/-- The workbook rows `_write_transactions_to_output_workbook` assigns:
`enumerate(gift_aidable_transactions, _first_table_row_index)` writes the
k-th accepted donation at workbook row `25 + k`. -/
def writeTransactionsRowAssignment (gift_aidable_transactions :
    List GiftAidableTransaction) : List (Nat × GiftAidableTransaction) :=
  enumerateFrom _first_table_row_index gift_aidable_transactions

theorem from_transaction_row_eq_some (r : TransactionRow)
    (od : Option DonorDeclaration) (a : ℚ) (ham : r.amount = some a)
    (hneg : ¬ a < 0) :
    GiftAidableTransaction.from_transaction_row r od =
      some ⟨r.transaction_date, a, od⟩ := by
  unfold GiftAidableTransaction.from_transaction_row
  rw [ham]
  dsimp only
  rw [if_neg hneg]

theorem capCheck_spec (i : Nat) (st' st1 : FilterState) (ctl : StepControl)
    (h : capCheck i st' = (st1, ctl)) :
    st1 = st' ∧
      ((ctl = .next ∧ st'.transactions.length ≠ 1000) ∨
        (ctl = .halt (capWarningText i) ∧ st'.transactions.length = 1000)) := by
  unfold capCheck at h
  split_ifs at h with hc
  · injection h with h1 h2
    subst h1; subst h2
    exact ⟨rfl, Or.inr ⟨rfl, hc⟩⟩
  · injection h with h1 h2
    subst h1; subst h2
    exact ⟨rfl, Or.inl ⟨rfl, hc⟩⟩

theorem filterStep_spec (declarations : List DonorDeclaration) (i : Nat)
    (row : TransactionRow) (st st1 : FilterState) (ctl : StepControl)
    (hstep : filterStep declarations i row st = (st1, ctl)) :
    st1.transactions.length ≤ st.transactions.length + 1 ∧
    (st.transactions.length < 1000 → ctl = .next →
      st1.transactions.length < 1000) ∧
    (∀ w, ctl = .halt w →
      st1.transactions.length = 1000 ∧ w = capWarningText i) ∧
    (∀ e, ctl = .crash e →
      e = .valueErrorFromReplace ∧ st1.transactions = st.transactions) ∧
    ((∀ e, ctl ≠ .crash e) → st1.audit.length = st.audit.length + 1) ∧
    (∀ t ∈ st1.transactions, t ∈ st.transactions ∨ 0 ≤ t.amount) ∧
    st1.manual.length ≤ st.manual.length + 1 := by
  unfold filterStep at hstep
  cases ham : row.amount with
  | none =>
    rw [ham] at hstep
    injection hstep with h1 h2
    subst h1; subst h2
    refine ⟨by simp, fun hlen _ => by simpa using hlen, ?_, ?_, ?_, ?_, by simp⟩
    · intro w hw; cases hw
    · intro e he; cases he
    · intro _; simp
    · intro t ht; exact Or.inl ht
  | some a =>
    rw [ham] at hstep
    dsimp only at hstep
    by_cases hneg : a < 0
    · rw [if_pos hneg] at hstep
      injection hstep with h1 h2
      subst h1; subst h2
      refine ⟨by simp, fun hlen _ => by simpa using hlen, ?_, ?_, ?_, ?_, by simp⟩
      · intro w hw; cases hw
      · intro e he; cases he
      · intro _; simp
      · intro t ht; exact Or.inl ht
    · rw [if_neg hneg] at hstep
      cases hm : declarations.filter (fun d =>
          listContainsSub row.cleaned_reference.data d.identifier.data) with
      | nil =>
        rw [hm] at hstep
        dsimp only at hstep
        obtain ⟨hst1, hctl⟩ := capCheck_spec _ _ _ _ hstep
        subst hst1
        refine ⟨by simp, ?_, ?_, ?_, ?_, ?_, by simp⟩
        · intro hlen _; simpa using hlen
        · intro w hw
          rcases hctl with ⟨hn, _⟩ | ⟨hh, heq⟩
          · rw [hn] at hw; cases hw
          · rw [hh] at hw
            injection hw with hw1
            exact ⟨by simpa using heq, hw1.symm⟩
        · intro e he
          rcases hctl with ⟨hn, _⟩ | ⟨hh, _⟩
          · rw [hn] at he; cases he
          · rw [hh] at he; cases he
        · intro _; simp
        · intro t ht; exact Or.inl ht
      | cons d1 ds =>
        cases ds with
        | nil =>
          rw [hm] at hstep
          dsimp only at hstep
          cases helig : _determine_whether_transaction_gift_aidable_for_declaration
              row d1 with
          | none =>
            rw [helig] at hstep
            dsimp only at hstep
            injection hstep with h1 h2
            subst h1; subst h2
            refine ⟨by simp, ?_, ?_, ?_, ?_, ?_, by simp⟩
            · intro _ hnx; cases hnx
            · intro w hw; cases hw
            · intro e he
              injection he with he1
              exact ⟨he1.symm, rfl⟩
            · intro hcr; exact absurd rfl (hcr .valueErrorFromReplace)
            · intro t ht; exact Or.inl ht
          | some outcome =>
            rw [helig] at hstep
            dsimp only at hstep
            by_cases ho : outcome = .IS_GIFT_AIDABLE
            · rw [if_pos ho] at hstep
              rw [from_transaction_row_eq_some row (some d1) a ham hneg] at hstep
              dsimp only at hstep
              obtain ⟨hst1, hctl⟩ := capCheck_spec _ _ _ _ hstep
              subst hst1
              refine ⟨by simp, ?_, ?_, ?_, ?_, ?_, by simp⟩
              · intro hlen hnx
                rcases hctl with ⟨_, hne⟩ | ⟨hh, _⟩
                · simp only [List.length_append, List.length_cons,
                    List.length_nil] at hne ⊢
                  omega
                · rw [hh] at hnx; cases hnx
              · intro w hw
                rcases hctl with ⟨hn, _⟩ | ⟨hh, heq⟩
                · rw [hn] at hw; cases hw
                · rw [hh] at hw
                  injection hw with hw1
                  exact ⟨by simpa using heq, hw1.symm⟩
              · intro e he
                rcases hctl with ⟨hn, _⟩ | ⟨hh, _⟩
                · rw [hn] at he; cases he
                · rw [hh] at he; cases he
              · intro _; simp
              · intro t ht
                simp only [List.mem_append, List.mem_singleton] at ht
                rcases ht with ht | ht
                · exact Or.inl ht
                · subst ht; exact Or.inr (le_of_not_lt hneg)
            · rw [if_neg ho] at hstep
              obtain ⟨hst1, hctl⟩ := capCheck_spec _ _ _ _ hstep
              subst hst1
              refine ⟨by simp, ?_, ?_, ?_, ?_, ?_, by simp⟩
              · intro hlen _; simpa using hlen
              · intro w hw
                rcases hctl with ⟨hn, _⟩ | ⟨hh, heq⟩
                · rw [hn] at hw; cases hw
                · rw [hh] at hw
                  injection hw with hw1
                  exact ⟨by simpa using heq, hw1.symm⟩
              · intro e he
                rcases hctl with ⟨hn, _⟩ | ⟨hh, _⟩
                · rw [hn] at he; cases he
                · rw [hh] at he; cases he
              · intro _; simp
              · intro t ht; exact Or.inl ht
        | cons d2 ds2 =>
          rw [hm] at hstep
          dsimp only at hstep
          rw [from_transaction_row_eq_some row none a ham hneg] at hstep
          dsimp only at hstep
          obtain ⟨hst1, hctl⟩ := capCheck_spec _ _ _ _ hstep
          subst hst1
          refine ⟨by simp, ?_, ?_, ?_, ?_, ?_, by simp⟩
          · intro hlen hnx
            rcases hctl with ⟨_, hne⟩ | ⟨hh, _⟩
            · simp only [List.length_append, List.length_cons,
                List.length_nil] at hne ⊢
              omega
            · rw [hh] at hnx; cases hnx
          · intro w hw
            rcases hctl with ⟨hn, _⟩ | ⟨hh, heq⟩
            · rw [hn] at hw; cases hw
            · rw [hh] at hw
              injection hw with hw1
              exact ⟨by simpa using heq, hw1.symm⟩
          · intro e he
            rcases hctl with ⟨hn, _⟩ | ⟨hh, _⟩
            · rw [hn] at he; cases he
            · rw [hh] at he; cases he
          · intro _; simp
          · intro t ht
            simp only [List.mem_append, List.mem_singleton] at ht
            rcases ht with ht | ht
            · exact Or.inl ht
            · subst ht; exact Or.inr (le_of_not_lt hneg)

/-- Postcondition of the filtering loop, relating its result to the
state it started from and the rows it was given. -/
def LoopPost (rows : List (Nat × TransactionRow)) (st : FilterState)
    (r : FilterResult) : Prop :=
  r.transactions.length ≤ 1000 ∧
  (r.warning.isSome = true ↔ r.transactions.length = 1000) ∧
  (r.warning.isSome = true → r.crash = none) ∧
  (r.crash = none →
    r.audit.length + r.unprocessed.length = st.audit.length + rows.length) ∧
  (∃ p, rows = p ++ r.unprocessed) ∧
  ((∀ t ∈ st.transactions, 0 ≤ t.amount) → ∀ t ∈ r.transactions, 0 ≤ t.amount) ∧
  r.crash ≠ some .valueErrorFromConstructor ∧
  (r.warning = none ∨ ∃ i, r.warning = some (capWarningText i))

theorem filterLoop_spec (declarations : List DonorDeclaration) :
    ∀ (rows : List (Nat × TransactionRow)) (st : FilterState),
      st.transactions.length < 1000 →
      LoopPost rows st (filterLoop declarations rows st) := by
  intro rows
  induction rows with
  | nil =>
    intro st hlen
    unfold filterLoop LoopPost
    dsimp only
    refine ⟨by omega, by simp; omega, by simp, by simp, ⟨[], by simp⟩,
      fun h => h, by simp, Or.inl rfl⟩
  | cons hd rest ih =>
    intro st hlen
    obtain ⟨i, row⟩ := hd
    unfold filterLoop
    cases hstep : filterStep declarations i row st with
    | mk st1 ctl =>
      obtain ⟨s1, s2, s3, s4, s5, s6, s7⟩ :=
        filterStep_spec declarations i row st st1 ctl hstep
      cases ctl with
      | next =>
        dsimp only
        have hlen1 : st1.transactions.length < 1000 := s2 hlen rfl
        obtain ⟨p1, p2, p3, p4, p5, p6, p7, p8⟩ := ih st1 hlen1
        refine ⟨p1, p2, p3, ?_, ?_, ?_, p7, p8⟩
        · intro hcr
          have := p4 hcr
          have haud : st1.audit.length = st.audit.length + 1 :=
            s5 (fun e he => by cases he)
          simp only [List.length_cons]
          omega
        · obtain ⟨p, hp⟩ := p5
          exact ⟨(i, row) :: p, by rw [List.cons_append, ← hp]⟩
        · intro hst t ht
          refine p6 ?_ t ht
          intro t1 ht1
          rcases s6 t1 ht1 with h | h
          · exact hst t1 h
          · exact h
      | halt w =>
        dsimp only
        obtain ⟨hl1000, hwv⟩ := s3 w rfl
        unfold LoopPost
        dsimp only
        refine ⟨by omega, by simp [hl1000], by simp, ?_, ⟨[(i, row)], by simp⟩,
          ?_, by simp, Or.inr ⟨i, by simp [hwv]⟩⟩
        · intro _
          have haud : st1.audit.length = st.audit.length + 1 :=
            s5 (fun e he => by cases he)
          simp only [List.length_cons]
          omega
        · intro hst t ht
          rcases s6 t ht with h | h
          · exact hst t h
          · exact h
      | crash e =>
        dsimp only
        obtain ⟨he, htr⟩ := s4 e rfl
        unfold LoopPost
        dsimp only
        refine ⟨?_, ?_, by simp, by simp [he], ⟨[(i, row)], by simp⟩,
          ?_, by simp [he], Or.inl rfl⟩
        · rw [htr]; omega
        · rw [htr]
          simp only [Option.isSome_none, Bool.false_eq_true, false_iff]
          omega
        · intro hst t ht
          rw [htr] at ht
          exact hst t ht

theorem enumerateFrom_length {α : Type} (i : Nat) (l : List α) :
    (enumerateFrom i l).length = l.length := by
  induction l generalizing i with
  | nil => rfl
  | cons x xs ih => simp [enumerateFrom, ih]

/-- C4: the filtering pipeline emits at most 1000 donations; the cap
warning is issued exactly when 1000 donations have been accumulated, in
which case no exception is raised and the donations are still returned;
when no exception is raised, the number of audit write calls plus the
number of unprocessed rows equals the number of input rows (so the rows
beyond the halt point got no classification and no audit line); the
unprocessed rows are a suffix of the input; and any warning carries the
source's resumption-guidance message. -/
theorem claim_C4_row_cap (transaction_rows : List TransactionRow)
    (declarations : List DonorDeclaration) :
    (_do_filtering_with_logging transaction_rows declarations).transactions.length ≤ 1000 ∧
    ((_do_filtering_with_logging transaction_rows declarations).warning.isSome = true ↔
      (_do_filtering_with_logging transaction_rows declarations).transactions.length = 1000) ∧
    ((_do_filtering_with_logging transaction_rows declarations).warning.isSome = true →
      (_do_filtering_with_logging transaction_rows declarations).crash = none) ∧
    ((_do_filtering_with_logging transaction_rows declarations).crash = none →
      (_do_filtering_with_logging transaction_rows declarations).audit.length +
        (_do_filtering_with_logging transaction_rows declarations).unprocessed.length =
        transaction_rows.length) ∧
    (∃ p, enumerateFrom 2 transaction_rows =
      p ++ (_do_filtering_with_logging transaction_rows declarations).unprocessed) ∧
    ((_do_filtering_with_logging transaction_rows declarations).warning = none ∨
      ∃ i, (_do_filtering_with_logging transaction_rows declarations).warning =
        some (capWarningText i)) := by
  have h := filterLoop_spec declarations (enumerateFrom 2 transaction_rows)
    ⟨[], [], []⟩ (by simp)
  unfold LoopPost at h
  unfold _do_filtering_with_logging
  obtain ⟨p1, p2, p3, p4, p5, p6, p7, p8⟩ := h
  refine ⟨p1, p2, p3, ?_, p5, p8⟩
  intro hc
  have := p4 hc
  simpa [enumerateFrom_length] using this

/-- A declaration used by the concrete pipeline runs below. -/
def demoDeclAlice : DonorDeclaration :=
  ⟨"Ms", "Al", "Ice", "1", "B1 1AA", ⟨2020, 1, 1⟩, true, true, true, "alice"⟩

/-- A second declaration used by the concrete pipeline runs below. -/
def demoDeclBob : DonorDeclaration :=
  ⟨"Mr", "Bo", "B", "2", "B2 2BB", ⟨2020, 1, 1⟩, true, true, true, "bob"⟩

/-- A single-row input whose row matches `demoDeclAlice` and is eligible. -/
def demoRowsAccepted : List TransactionRow :=
  [⟨⟨2021, 1, 1⟩, "alice", some 5, 2⟩]

/-- C4 witness: the cap theorem applied to a concrete one-row run, with
the crash-freedom hypothesis discharged by evaluation. -/
theorem claim_C4_row_cap_witness :
    (_do_filtering_with_logging demoRowsAccepted [demoDeclAlice]).transactions.length ≤ 1000 ∧
    (_do_filtering_with_logging demoRowsAccepted [demoDeclAlice]).audit.length +
      (_do_filtering_with_logging demoRowsAccepted [demoDeclAlice]).unprocessed.length =
      demoRowsAccepted.length :=
  ⟨(claim_C4_row_cap demoRowsAccepted [demoDeclAlice]).1,
    (claim_C4_row_cap demoRowsAccepted [demoDeclAlice]).2.2.2.1 (by decide)⟩

theorem from_transaction_row_none_iff (r : TransactionRow)
    (od : Option DonorDeclaration) :
    GiftAidableTransaction.from_transaction_row r od = none ↔
      (r.amount = none ∨ ∃ a, r.amount = some a ∧ a < 0) := by
  unfold GiftAidableTransaction.from_transaction_row
  cases ham : r.amount with
  | none => simp
  | some a =>
    dsimp only
    by_cases hneg : a < 0
    · simp [if_pos hneg, hneg]
    · simp [if_neg hneg, hneg]

/-- C10: `GiftAidableTransaction.from_transaction_row` raises exactly
when the row's amount is absent or strictly negative (zero is accepted),
and within the filtering pipeline that `ValueError` is unreachable —
every run's crash field is never the constructor error, and every emitted
donation carries a non-negative amount. -/
theorem claim_C10_amount_guard :
    (∀ (r : TransactionRow) (od : Option DonorDeclaration),
      GiftAidableTransaction.from_transaction_row r od = none ↔
        (r.amount = none ∨ ∃ a, r.amount = some a ∧ a < 0)) ∧
    (∀ (transaction_rows : List TransactionRow)
      (declarations : List DonorDeclaration),
      (_do_filtering_with_logging transaction_rows declarations).crash ≠
        some .valueErrorFromConstructor ∧
      (∀ t ∈ (_do_filtering_with_logging transaction_rows declarations).transactions,
        0 ≤ t.amount)) := by
  refine ⟨from_transaction_row_none_iff, ?_⟩
  intro transaction_rows declarations
  have h := filterLoop_spec declarations (enumerateFrom 2 transaction_rows)
    ⟨[], [], []⟩ (by simp)
  unfold LoopPost at h
  exact ⟨h.2.2.2.2.2.2.1, h.2.2.2.2.2.1 (by simp)⟩

/-- C10 witness: the guard theorem applied to the concrete one-row run,
with the membership hypothesis discharged by evaluation. -/
theorem claim_C10_amount_guard_witness :
    (0 : ℚ) ≤ (GiftAidableTransaction.mk ⟨2021, 1, 1⟩ 5 (some demoDeclAlice)).amount :=
  claim_C10_amount_guard.2 demoRowsAccepted [demoDeclAlice] |>.2
    ⟨⟨2021, 1, 1⟩, 5, some demoDeclAlice⟩ (by decide)

/-- A declaration whose coverage excludes days after signing. -/
def demoDeclNoAfter : DonorDeclaration :=
  ⟨"Mr", "Foo", "Bar", "1", "B1 1AA", ⟨2020, 1, 1⟩, true, true, false, "alice"⟩

/-- Two rows: the first is declared-but-excluded (post-declaration, flag
false), the second matches no declaration. -/
def demoRowsExcludedThenNoMatch : List TransactionRow :=
  [⟨⟨2020, 6, 1⟩, "alice", some 5, 2⟩, ⟨⟨2020, 6, 2⟩, "zzz", some 5, 3⟩]

set_option maxRecDepth 40000 in
/-- C5: processing two rows produces two audit write calls, but the
declared-but-excluded write carries no trailing newline, so the audit
log contains only one completed line — the two rows share a line,
contradicting one-line-per-row. -/
theorem claim_C5_missing_newline :
    (_do_filtering_with_logging demoRowsExcludedThenNoMatch
      [demoDeclNoAfter]).audit.length = 2 ∧
    (_do_filtering_with_logging demoRowsExcludedThenNoMatch
      [demoDeclNoAfter]).unprocessed = [] ∧
    (_do_filtering_with_logging demoRowsExcludedThenNoMatch
      [demoDeclNoAfter]).crash = none ∧
    countNewlines (transactionsLogContent
      (_do_filtering_with_logging demoRowsExcludedThenNoMatch
        [demoDeclNoAfter])) = 1 := by
  refine ⟨by decide, by decide, by decide, by decide⟩

/-- Two rows: the first matches no declaration (so it yields no
donation), the second matches two declarations (ambiguous). -/
def demoRowsNoMatchThenAmbiguous : List TransactionRow :=
  [⟨⟨2024, 1, 1⟩, "zzz", some 5, 2⟩, ⟨⟨2024, 1, 2⟩, "alicebob", some 5, 3⟩]

/-- C2: on an ambiguous row preceded by a skipped row, the pipeline
emits the donation with no bound declaration and one manual-review line
naming both donors and input row 3, but the line records xlsx row 26
(`_first_table_row_index + row_index - 2`) while the writer actually
places that donation — the only one of the run — at workbook row 25. -/
theorem claim_C2_wrong_xlsx_row :
    (_do_filtering_with_logging demoRowsNoMatchThenAmbiguous
      [demoDeclAlice, demoDeclBob]).manual =
      [⟨26, 3, "Ms Al Ice, Mr Bo B"⟩] ∧
    (_do_filtering_with_logging demoRowsNoMatchThenAmbiguous
      [demoDeclAlice, demoDeclBob]).transactions =
      [⟨⟨2024, 1, 2⟩, 5, none⟩] ∧
    (writeTransactionsRowAssignment
      (_do_filtering_with_logging demoRowsNoMatchThenAmbiguous
        [demoDeclAlice, demoDeclBob]).transactions).map Prod.fst = [25] ∧
    (26 : Nat) ≠ 25 := by
  refine ⟨by decide, by decide, by decide, by decide⟩

/-! ### `build_output_directory.py`: the run directory manager -/

/-- Python `name.startswith(p)`. -/
def strStartsWith (s p : String) : Bool := p.data.isPrefixOf s.data

/-- Consume an exact literal from the front of a character list. -/
def stripLit (lit cs : List Char) : Option (List Char) :=
  match lit, cs with
  | [], cs => some cs
  | _ :: _, [] => none
  | l :: ls, c :: cs => if c = l then stripLit ls cs else none

/-- Consume exactly `k` digit characters from the front. -/
def dropExactDigits (k : Nat) (cs : List Char) : Option (List Char) :=
  match k, cs with
  | 0, cs => some cs
  | _ + 1, [] => none
  | k + 1, c :: cs => if isDigitChar c then dropExactDigits k cs else none

/-- `_output_file_name_regex.match(fn)` followed by `int(match.group(1))`:
the anchored-prefix match of `output_\d{4}-\d{2}-\d{2}_\((\d+)\)` (the
`re.match` method matches a prefix, so arbitrary text may follow the
closing parenthesis), returning the captured suffix number. -/
def regexSuffix (name : String) : Option Nat :=
  match stripLit "output_".data name.data with
  | none => none
  | some cs1 =>
  match dropExactDigits 4 cs1 with
  | none => none
  | some cs2 =>
  match stripLit "-".data cs2 with
  | none => none
  | some cs3 =>
  match dropExactDigits 2 cs3 with
  | none => none
  | some cs4 =>
  match stripLit "-".data cs4 with
  | none => none
  | some cs5 =>
  match dropExactDigits 2 cs5 with
  | none => none
  | some cs6 =>
  match stripLit "_(".data cs6 with
  | none => none
  | some cs7 =>
  match stripLit ")".data (cs7.dropWhile isDigitChar) with
  | none => none
  | some _ =>
    if (cs7.takeWhile isDigitChar).isEmpty then none
    else some (digitsVal (cs7.takeWhile isDigitChar))

/-- `_determine_output_directory`, as a function of the sibling directory
names found under `outputs/` and of `date.today()`: pick
`output_<ISO-date>` when that name is absent, and otherwise append
`_(n)` where `n` is one more than the largest regex-extracted suffix of
the names sharing the date prefix (1 when no name carries a suffix). -/
def _determine_output_directory (existingNames : List String) (today : Date) :
    String :=
  let date_stamp := today.isoformat
  let directory_base_name := "output_" ++ date_stamp
  let existing_output_directories :=
    existingNames.filter (fun n => strStartsWith n directory_base_name)
  if directory_base_name ∈ existing_output_directories then
    let output_directories_numbers :=
      existing_output_directories.filterMap regexSuffix
    let next_directory_number :=
      if output_directories_numbers = [] then 1
      else output_directories_numbers.foldl Nat.max 0 + 1
    directory_base_name ++ "_(" ++ decimalRepr next_directory_number ++ ")"
  else directory_base_name

/-- `_get_output_directory` acting on the module-global
`_output_directory` cache: returns the directory, the new cache value,
and whether this call performed the allocation (the
`_determine_output_directory()` call plus the exclusive `mkdir()`). -/
def _get_output_directory (existingNames : List String) (today : Date) :
    Option String → String × Option String × Bool
  | some d => (d, some d, false)
  | none =>
    (_determine_output_directory existingNames today,
      some (_determine_output_directory existingNames today), true)

/-- `n` successive `_get_output_directory()` calls from a cache state:
the values returned, the final cache state, and how many calls
performed the allocation. -/
def getOutputDirectoryCalls (existingNames : List String) (today : Date) :
    Nat → Option String → List String × Option String × Nat
  | 0, st => ([], st, 0)
  | n + 1, st =>
    match _get_output_directory existingNames today st with
    | (d, st1, alloc) =>
      match getOutputDirectoryCalls existingNames today n st1 with
      | (ds, stf, cnt) => (d :: ds, stf, cnt + (if alloc then 1 else 0))

theorem digitVal_digitChar (n : Nat) (h : n < 10) :
    digitVal (digitChar n) = n := by
  interval_cases n <;> decide

theorem isDigitChar_digitChar (n : Nat) : isDigitChar (digitChar n) = true := by
  unfold digitChar
  split <;> decide

theorem digitsVal_append_singleton (l : List Char) (c : Char) :
    digitsVal (l ++ [c]) = 10 * digitsVal l + digitVal c := by
  unfold digitsVal
  rw [List.foldl_append]
  rfl

theorem decimalDigitsAux_val (fuel : Nat) :
    ∀ n, n < 10 ^ fuel → digitsVal (decimalDigitsAux fuel n) = n := by
  induction fuel with
  | zero =>
    intro n hn
    interval_cases n
    rfl
  | succ fuel ih =>
    intro n hn
    unfold decimalDigitsAux
    by_cases h10 : n < 10
    · rw [if_pos h10]
      unfold digitsVal
      simp [List.foldl, digitVal_digitChar n h10]
    · rw [if_neg h10]
      rw [digitsVal_append_singleton]
      have hdiv : n / 10 < 10 ^ fuel := by
        rw [Nat.div_lt_iff_lt_mul (by omega)]
        calc n < 10 ^ (fuel + 1) := hn
        _ = 10 ^ fuel * 10 := by rw [Nat.pow_succ]
      rw [ih (n / 10) hdiv, digitVal_digitChar (n % 10) (Nat.mod_lt n (by omega))]
      omega

theorem decimalDigits_val (n : Nat) : digitsVal (decimalDigits n) = n := by
  unfold decimalDigits
  refine decimalDigitsAux_val (n + 1) n ?_
  calc n < 10 ^ n := Nat.lt_pow_self (by omega) n
  _ ≤ 10 ^ (n + 1) := Nat.pow_le_pow_right (by omega) (Nat.le_succ n)

theorem decimalDigitsAux_all_digits (fuel : Nat) :
    ∀ n c, c ∈ decimalDigitsAux fuel n → isDigitChar c = true := by
  induction fuel with
  | zero => intro n c hc; cases hc
  | succ fuel ih =>
    intro n c hc
    unfold decimalDigitsAux at hc
    by_cases h10 : n < 10
    · rw [if_pos h10] at hc
      rw [List.mem_singleton] at hc
      subst hc
      exact isDigitChar_digitChar n
    · rw [if_neg h10] at hc
      rw [List.mem_append] at hc
      rcases hc with hc | hc
      · exact ih (n / 10) c hc
      · rw [List.mem_singleton] at hc
        subst hc
        exact isDigitChar_digitChar (n % 10)

theorem decimalDigits_all_digits (n : Nat) (c : Char)
    (hc : c ∈ decimalDigits n) : isDigitChar c = true :=
  decimalDigitsAux_all_digits (n + 1) n c hc

theorem decimalDigits_ne_nil (n : Nat) : decimalDigits n ≠ [] := by
  unfold decimalDigits decimalDigitsAux
  by_cases h10 : n < 10
  · rw [if_pos h10]; simp
  · rw [if_neg h10]; simp

theorem decimalDigitsAux_length_le (fuel : Nat) :
    ∀ n k, n < 10 ^ k → 1 ≤ k → (decimalDigitsAux fuel n).length ≤ k := by
  induction fuel with
  | zero => intro n k _ _; simp [decimalDigitsAux]
  | succ fuel ih =>
    intro n k hn hk
    unfold decimalDigitsAux
    by_cases h10 : n < 10
    · rw [if_pos h10]; simpa using hk
    · rw [if_neg h10]
      have hk2 : 2 ≤ k := by
        by_contra hcon
        have : k = 1 := by omega
        subst this
        simp only [pow_one] at hn
        omega
      have hdiv : n / 10 < 10 ^ (k - 1) := by
        rw [Nat.div_lt_iff_lt_mul (by omega)]
        calc n < 10 ^ k := hn
        _ = 10 ^ (k - 1) * 10 := by
          rw [← Nat.pow_succ]
          congr 1
          omega
      have := ih (n / 10) (k - 1) hdiv (by omega)
      simp only [List.length_append, List.length_cons, List.length_nil]
      omega

theorem decimalDigits_length_le (n k : Nat) (hn : n < 10 ^ k) (hk : 1 ≤ k) :
    (decimalDigits n).length ≤ k :=
  decimalDigitsAux_length_le (n + 1) n k hn hk

theorem padZeros_length (w : Nat) (l : List Char) (h : l.length ≤ w) :
    (padZeros w l).length = w := by
  unfold padZeros
  simp only [List.length_append, List.length_replicate]
  omega

theorem padZeros_all_digits (w : Nat) (l : List Char)
    (h : ∀ c ∈ l, isDigitChar c = true) :
    ∀ c ∈ padZeros w l, isDigitChar c = true := by
  intro c hc
  unfold padZeros at hc
  rw [List.mem_append] at hc
  rcases hc with hc | hc
  · rw [List.eq_of_mem_replicate hc]
    decide
  · exact h c hc

theorem stripLit_append (lit rest : List Char) :
    stripLit lit (lit ++ rest) = some rest := by
  induction lit with
  | nil => rfl
  | cons l ls ih => simp [stripLit, ih]

theorem dropExactDigits_append (l rest : List Char) (k : Nat)
    (hlen : l.length = k) (hdig : ∀ c ∈ l, isDigitChar c = true) :
    dropExactDigits k (l ++ rest) = some rest := by
  induction l generalizing k with
  | nil => subst hlen; rfl
  | cons c cs ih =>
    subst hlen
    simp only [List.length_cons, List.cons_append]
    unfold dropExactDigits
    rw [if_pos (hdig c (by simp))]
    exact ih cs.length rfl (fun x hx => hdig x (by simp [hx]))

theorem takeWhile_append_all (p : Char → Bool) (l : List Char) (c0 : Char)
    (r : List Char) (h : ∀ c ∈ l, p c = true) (hc : p c0 = false) :
    (l ++ c0 :: r).takeWhile p = l ∧ (l ++ c0 :: r).dropWhile p = c0 :: r := by
  induction l with
  | nil => simp [List.takeWhile, List.dropWhile, hc]
  | cons x xs ih =>
    have hx : p x = true := h x (by simp)
    obtain ⟨ih1, ih2⟩ := ih (fun c hcm => h c (by simp [hcm]))
    refine ⟨?_, ?_⟩
    · simp [List.takeWhile_cons, hx, ih1]
    · simp [List.dropWhile_cons, hx, ih2]

theorem strData_append (a b : String) : (a ++ b).data = a.data ++ b.data := by
  cases a; cases b; rfl

theorem validDate_year_lt (today : Date)
    (hv : validDate today.year today.month today.day) :
    today.year < 10 ^ 4 := by
  have := hv.2.1
  simp only [pow_succ, pow_zero]
  omega

theorem validDate_month_lt (today : Date)
    (hv : validDate today.year today.month today.day) :
    today.month < 10 ^ 2 := by
  have := hv.2.2.2.1
  simp only [pow_succ, pow_zero]
  omega

theorem validDate_day_lt (today : Date)
    (hv : validDate today.year today.month today.day) :
    today.day < 10 ^ 2 := by
  have h := hv.2.2.2.2.2
  have hdm : daysInMonth today.year today.month ≤ 31 := by
    unfold daysInMonth
    split_ifs <;> omega
  simp only [pow_succ, pow_zero]
  omega

theorem regexSuffix_roundtrip (today : Date)
    (hv : validDate today.year today.month today.day) (k : Nat) :
    regexSuffix ("output_" ++ today.isoformat ++ "_(" ++ decimalRepr k ++ ")") =
      some k := by
  have hy := padZeros_length 4 (decimalDigits today.year)
    (decimalDigits_length_le _ 4 (validDate_year_lt today hv) (by omega))
  have hm := padZeros_length 2 (decimalDigits today.month)
    (decimalDigits_length_le _ 2 (validDate_month_lt today hv) (by omega))
  have hd := padZeros_length 2 (decimalDigits today.day)
    (decimalDigits_length_le _ 2 (validDate_day_lt today hv) (by omega))
  have hyd := padZeros_all_digits 4 (decimalDigits today.year)
    (decimalDigits_all_digits today.year)
  have hmd := padZeros_all_digits 2 (decimalDigits today.month)
    (decimalDigits_all_digits today.month)
  have hdd := padZeros_all_digits 2 (decimalDigits today.day)
    (decimalDigits_all_digits today.day)
  have hdash : ("-" : String).data = ['-'] := rfl
  have hup : ("_(" : String).data = ['_', '('] := rfl
  have hrp : (")" : String).data = [')'] := rfl
  have hdata : ("output_" ++ today.isoformat ++ "_(" ++ decimalRepr k ++ ")").data =
      "output_".data ++ (padZeros 4 (decimalDigits today.year) ++ ("-".data ++
        (padZeros 2 (decimalDigits today.month) ++ ("-".data ++
          (padZeros 2 (decimalDigits today.day) ++ ("_(".data ++
            (decimalDigits k ++ ")".data))))))) := by
    simp only [strData_append, hdash, hup, hrp]
    unfold Date.isoformat decimalRepr
    simp [List.append_assoc]
  unfold regexSuffix
  rw [hdata, stripLit_append]
  dsimp only
  rw [dropExactDigits_append _ _ 4 hy hyd]
  dsimp only
  rw [stripLit_append]
  dsimp only
  rw [dropExactDigits_append _ _ 2 hm hmd]
  dsimp only
  rw [stripLit_append]
  dsimp only
  rw [dropExactDigits_append _ _ 2 hd hdd]
  dsimp only
  rw [stripLit_append]
  dsimp only
  obtain ⟨htake, hdrop⟩ := takeWhile_append_all isDigitChar (decimalDigits k)
    ')' [] (decimalDigits_all_digits k) (by decide)
  rw [hdrop]
  have hfin : stripLit ")".data [')'] = some ([] : List Char) := rfl
  rw [hfin]
  dsimp only
  rw [htake, if_neg (by
    simp only [List.isEmpty_iff]
    exact decimalDigits_ne_nil k)]
  rw [decimalDigits_val]

theorem isPrefixOf_append_right (l r : List Char) :
    l.isPrefixOf (l ++ r) = true := by
  induction l with
  | nil => simp [List.isPrefixOf]
  | cons c cs ih => simp [List.isPrefixOf, ih]

theorem strStartsWith_self (s : String) : strStartsWith s s = true := by
  unfold strStartsWith
  have h := isPrefixOf_append_right s.data []
  rw [List.append_nil] at h
  exact h

theorem strStartsWith_prefix (p a b c : String) :
    strStartsWith (p ++ a ++ b ++ c) p = true := by
  unfold strStartsWith
  simp only [strData_append, List.append_assoc]
  exact isPrefixOf_append_right _ _

theorem le_foldl_max (l : List Nat) :
    ∀ b x, x ≤ b → x ≤ l.foldl Nat.max b := by
  induction l with
  | nil => intro b x h; exact h
  | cons c cs ih =>
    intro b x h
    exact ih (Nat.max b c) x (le_trans h (Nat.le_max_left b c))

theorem mem_le_foldl_max (l : List Nat) :
    ∀ b a, a ∈ l → a ≤ l.foldl Nat.max b := by
  induction l with
  | nil => intro b a h; cases h
  | cons c cs ih =>
    intro b a h
    rcases List.mem_cons.mp h with h | h
    · subst h
      exact le_foldl_max cs (Nat.max b a) a (Nat.le_max_right b a)
    · exact ih (Nat.max b c) a h

theorem mem_nums_of_chosen_mem (existingNames : List String) (today : Date)
    (hv : validDate today.year today.month today.day) (n : Nat)
    (hin : ("output_" ++ today.isoformat ++ "_(" ++ decimalRepr n ++ ")") ∈
      existingNames) :
    n ∈ (existingNames.filter (fun nm =>
      strStartsWith nm ("output_" ++ today.isoformat))).filterMap regexSuffix :=
  List.mem_filterMap.mpr
    ⟨_, List.mem_filter.mpr ⟨hin, strStartsWith_prefix _ _ _ _⟩,
      regexSuffix_roundtrip today hv n⟩

/-- The chosen run directory name never collides with an existing
sibling name, so the exclusive `mkdir()` cannot hit an existing
directory. -/
theorem determine_not_mem (existingNames : List String) (today : Date)
    (hv : validDate today.year today.month today.day) :
    _determine_output_directory existingNames today ∉ existingNames := by
  unfold _determine_output_directory
  dsimp only
  by_cases hmem : ("output_" ++ today.isoformat) ∈ List.filter (fun n =>
      strStartsWith n ("output_" ++ today.isoformat)) existingNames
  · rw [if_pos hmem]
    intro hin
    have hnum := mem_nums_of_chosen_mem existingNames today hv _ hin
    by_cases hnil : (existingNames.filter (fun nm =>
        strStartsWith nm ("output_" ++ today.isoformat))).filterMap
        regexSuffix = []
    · rw [hnil] at hnum
      exact absurd hnum (List.not_mem_nil _)
    · have hle := mem_le_foldl_max _ 0 _ hnum
      rw [if_neg hnil] at hle
      omega
  · rw [if_neg hmem]
    intro hin
    exact hmem (List.mem_filter.mpr ⟨hin, strStartsWith_self _⟩)

theorem getOutputDirectoryCalls_cached (existingNames : List String)
    (today : Date) (d : String) :
    ∀ n, getOutputDirectoryCalls existingNames today n (some d) =
      (List.replicate n d, some d, 0) := by
  intro n
  induction n with
  | zero => rfl
  | succ n ih =>
    simp [getOutputDirectoryCalls, _get_output_directory, ih,
      List.replicate_succ]

theorem getOutputDirectoryCalls_fresh (existingNames : List String)
    (today : Date) (n : Nat) (hn : 1 ≤ n) :
    getOutputDirectoryCalls existingNames today n none =
      (List.replicate n (_determine_output_directory existingNames today),
        some (_determine_output_directory existingNames today), 1) := by
  cases n with
  | zero => omega
  | succ m =>
    unfold getOutputDirectoryCalls _get_output_directory
    dsimp only
    rw [getOutputDirectoryCalls_cached]
    simp [List.replicate_succ]

/-- C6: the run-directory allocator names the directory
`output_<ISO-date>` when no sibling of that exact name exists; otherwise
it appends `_(n)` with `n` one greater than the maximum regex-extracted
suffix among siblings carrying the date prefix (1 when none carry a
suffix); the chosen name never already exists among the siblings
(creation by the exclusive `mkdir()` cannot overwrite); and across any
number of `_get_output_directory()` calls in one process the allocation
happens exactly once, every call returning the same directory. -/
theorem claim_C6_run_directory (existingNames : List String) (today : Date) :
    (("output_" ++ today.isoformat) ∉ existingNames →
      _determine_output_directory existingNames today =
        "output_" ++ today.isoformat) ∧
    (("output_" ++ today.isoformat) ∈ existingNames →
      _determine_output_directory existingNames today =
        "output_" ++ today.isoformat ++ "_(" ++
          decimalRepr
            (if (existingNames.filter (fun n =>
                strStartsWith n ("output_" ++ today.isoformat))).filterMap
                regexSuffix = [] then 1
              else ((existingNames.filter (fun n =>
                strStartsWith n ("output_" ++ today.isoformat))).filterMap
                regexSuffix).foldl Nat.max 0 + 1) ++ ")") ∧
    (validDate today.year today.month today.day →
      _determine_output_directory existingNames today ∉ existingNames) ∧
    (∀ n, 1 ≤ n →
      getOutputDirectoryCalls existingNames today n none =
        (List.replicate n (_determine_output_directory existingNames today),
          some (_determine_output_directory existingNames today), 1)) := by
  refine ⟨?_, ?_, determine_not_mem existingNames today,
    getOutputDirectoryCalls_fresh existingNames today⟩
  · intro hnot
    unfold _determine_output_directory
    dsimp only
    rw [if_neg (fun hmem => hnot (List.mem_filter.mp hmem).1)]
  · intro hmem
    unfold _determine_output_directory
    dsimp only
    rw [if_pos (show ("output_" ++ today.isoformat) ∈ List.filter (fun n =>
      strStartsWith n ("output_" ++ today.isoformat)) existingNames from
      List.mem_filter.mpr ⟨hmem, strStartsWith_self _⟩)]

/-- The sibling names of the concrete C6 scenario. -/
def demoExistingNames : List String :=
  ["output_2024-05-01", "output_2024-05-01_(1)", "output_2024-05-01_(3)",
    "output_2024-04-30", "notes.txt"]

/-- The current date of the concrete C6 scenario. -/
def demoToday : Date := ⟨2024, 5, 1⟩

set_option maxRecDepth 40000 in
/-- C6 witness: the allocator theorem applied to a fresh outputs
directory and to one already holding suffixed run directories, with
every hypothesis discharged by evaluation. -/
theorem claim_C6_run_directory_witness :
    _determine_output_directory [] demoToday = "output_2024-05-01" ∧
    _determine_output_directory demoExistingNames demoToday =
      "output_2024-05-01_(4)" ∧
    _determine_output_directory demoExistingNames demoToday ∉
      demoExistingNames ∧
    getOutputDirectoryCalls demoExistingNames demoToday 2 none =
      ([_determine_output_directory demoExistingNames demoToday,
        _determine_output_directory demoExistingNames demoToday],
        some (_determine_output_directory demoExistingNames demoToday), 1) :=
  ⟨((claim_C6_run_directory [] demoToday).1 (by decide)).trans (by decide),
    ((claim_C6_run_directory demoExistingNames demoToday).2.1
      (by decide)).trans (by decide),
    (claim_C6_run_directory demoExistingNames demoToday).2.2.1 (by decide),
    (claim_C6_run_directory demoExistingNames demoToday).2.2.2 2 (by decide)⟩
